import Mathlib

/-
Verification of the effect core of reactive_graph (src/reactive_graph/src/effect/effect.rs),
as a shallow embedding in Lean 4.

Modelling conventions:
* The thread-local EFFECT_SCOPE_ACTIVE flag is threaded explicitly as a `Bool`
  state; a user-visible function that may call `in_effect_scope()` therefore
  receives the current flag value as an extra `Bool` argument.
* The external collaborators (spec section 6) enter each loop iteration as data:
  `owner.paused()` and the value `subscriber.update_if_necessary()` would return
  on this wake are fields of `WakeEnv`; the observer context's recording of
  reactive reads is modelled by the user/dependency function returning the list
  of sources it read, which becomes the new tracked source set.
* `Arc<RwLock<Option<T>>>` previous-value cells are `Option T` in the loop
  state; `mem::take` is `memTake`; lock poisoning is invisible here because
  `.or_poisoned()` salvages the value (spec section 7).
* A Rust panic from `.expect(...)` is modelled as `Except.error` carrying the
  panic message.
-/

/-- Identifier of a reactive source (a signal) as recorded in a tracked source set. -/
abbrev Src := Nat

/-- One iteration's view of the external collaborators: `paused` is the value of
`owner.paused()` on this wake, and `update_if_necessary` is the value the
subscriber's `update_if_necessary()` call would return if it were invoked
(under the observer bound to this effect) on this wake. -/
structure WakeEnv where
  paused : Bool
  update_if_necessary : Bool
deriving DecidableEq, Repr

/-- Loop-local state of a plain effect (Effect::new, Effect::new_isomorphic):
the `first_run` flag, the previous-output cell `value`
(`Arc<RwLock<Option<T>>>` in the source), and the record's tracked source set. -/
structure EffectState (T : Type) where
  first_run : Bool
  value : Option T
  sources : List Src
deriving DecidableEq, Repr

/-- Observable outcome of one received wake in a plain driving loop. `ran`
records whether the user function was called, `uinCalled` whether
`update_if_necessary` was evaluated (the Rust `&&` short-circuits it away when
the owner is paused), `passedPrev` the argument the user function was called
with (if it was called), and `cellDuringRun` the contents of the
previous-output cell while the user function was executing (if it ran). -/
structure IterResult (T : Type) where
  state : EffectState T
  ran : Bool
  uinCalled : Bool
  passedPrev : Option (Option T)
  cellDuringRun : Option (Option T)
deriving DecidableEq, Repr

/-- std::mem::take on an Option cell: first component is the taken contents,
second is what the cell holds afterwards (empty). -/
def memTake {T : Type} (cell : Option T) : Option T × Option T := (cell, none)

/-- in_effect_scope (effect.rs): reads the thread-local EFFECT_SCOPE_ACTIVE
flag; as a flag-state computation it returns the flag and leaves it unchanged. -/
def in_effect_scope : Bool → Bool × Bool := fun flag => (flag, flag)

/-- run_in_effect_scope (effect.rs): swaps the thread-local flag to true
(remembering its prior value), runs the function, then stores the saved value
back (deliberately not `false`, for nesting). `f` is a flag-state computation. -/
def run_in_effect_scope {α : Type} (f : Bool → α × Bool) (flag : Bool) : α × Bool :=
  let initial := flag
  let r := f true
  (r.1, initial)

/-- One received wake of the Effect::new driving loop (effect.rs lines 172-190).
The user function `f` receives the previous output and the value
`in_effect_scope()` reports during its body, and returns the new output
together with the list of reactive sources it read (which the observer context
records as the new tracked source set after `clear_sources`). The ambient
EFFECT_SCOPE_ACTIVE flag is the last argument and is returned updated. -/
def Effect.newStep {T : Type} (f : Option T → Bool → T × List Src)
    (env : WakeEnv) (s : EffectState T) (flag : Bool) :
    IterResult T × Bool :=
  if env.paused then
    ({ state := s, ran := false, uinCalled := false,
       passedPrev := none, cellDuringRun := none }, flag)
  else if env.update_if_necessary || s.first_run then
    let cleared : List Src := []
    let taken := memTake s.value
    let old_value := taken.1
    let r := run_in_effect_scope (fun b => (f old_value b, b)) flag
    ({ state := { first_run := false, value := some r.1.1,
                  sources := cleared ++ r.1.2 },
       ran := true, uinCalled := true,
       passedPrev := some old_value, cellDuringRun := some taken.2 }, r.2)
  else
    ({ state := s, ran := false, uinCalled := true,
       passedPrev := none, cellDuringRun := none }, flag)

/-- One received wake of the Effect::new_isomorphic driving loop (effect.rs
lines 408-425); the source duplicates the Effect::new loop body verbatim, and
so does this definition. -/
def Effect.new_isomorphicStep {T : Type} (f : Option T → Bool → T × List Src)
    (env : WakeEnv) (s : EffectState T) (flag : Bool) :
    IterResult T × Bool :=
  if env.paused then
    ({ state := s, ran := false, uinCalled := false,
       passedPrev := none, cellDuringRun := none }, flag)
  else if env.update_if_necessary || s.first_run then
    let cleared : List Src := []
    let taken := memTake s.value
    let old_value := taken.1
    let r := run_in_effect_scope (fun b => (f old_value b, b)) flag
    ({ state := { first_run := false, value := some r.1.1,
                  sources := cleared ++ r.1.2 },
       ran := true, uinCalled := true,
       passedPrev := some old_value, cellDuringRun := some taken.2 }, r.2)
  else
    ({ state := s, ran := false, uinCalled := true,
       passedPrev := none, cellDuringRun := none }, flag)

/-- Loop-local state of a watch effect (Effect::watch, Effect::watch_sync). -/
structure WatchState (D T : Type) where
  first_run : Bool
  dep_value : Option D
  watch_value : Option T
  sources : List Src
deriving DecidableEq, Repr

/-- Observable outcome of one received wake in a watch driving loop.
`handlerCall` records the arguments the handler was invoked with, or `none`
when the handler was not invoked. -/
structure WatchIterResult (D T : Type) where
  state : WatchState D T
  ran : Bool
  uinCalled : Bool
  handlerCall : Option (D × Option D × Option T)
deriving DecidableEq, Repr

/-- One received wake of the Effect::watch driving loop (effect.rs lines
324-359). `dependency_fn` runs inside the observer/cleanup context (its reads
become the tracked source set) but is not wrapped in run_in_effect_scope, so it
sees the ambient flag; likewise the handler. The handler runs outside the
observer context, so it contributes no tracked reads. -/
def Effect.watchStep {D T : Type}
    (dependency_fn : Bool → D × List Src)
    (handler : D → Option D → Option T → Bool → T)
    (immediate : Bool)
    (env : WakeEnv) (s : WatchState D T) (flag : Bool) :
    WatchIterResult D T × Bool :=
  if env.paused then
    ({ state := s, ran := false, uinCalled := false, handlerCall := none }, flag)
  else if env.update_if_necessary || s.first_run then
    let cleared : List Src := []
    let takenDep := memTake s.dep_value
    let old_dep_value := takenDep.1
    let rdep := dependency_fn flag
    let new_dep_value := rdep.1
    let takenWatch := memTake s.watch_value
    let old_watch_value := takenWatch.1
    if immediate || !s.first_run then
      let new_watch_value := handler new_dep_value old_dep_value old_watch_value flag
      ({ state := { first_run := false, dep_value := some new_dep_value,
                    watch_value := some new_watch_value,
                    sources := cleared ++ rdep.2 },
         ran := true, uinCalled := true,
         handlerCall := some (new_dep_value, old_dep_value, old_watch_value) }, flag)
    else
      ({ state := { first_run := false, dep_value := some new_dep_value,
                    watch_value := takenWatch.2,
                    sources := cleared ++ rdep.2 },
         ran := true, uinCalled := true, handlerCall := none }, flag)
  else
    ({ state := s, ran := false, uinCalled := true, handlerCall := none }, flag)

/-- One received wake of the Effect::watch_sync driving loop (effect.rs lines
462-498); the source duplicates the Effect::watch loop body verbatim, and so
does this definition. -/
def Effect.watch_syncStep {D T : Type}
    (dependency_fn : Bool → D × List Src)
    (handler : D → Option D → Option T → Bool → T)
    (immediate : Bool)
    (env : WakeEnv) (s : WatchState D T) (flag : Bool) :
    WatchIterResult D T × Bool :=
  if env.paused then
    ({ state := s, ran := false, uinCalled := false, handlerCall := none }, flag)
  else if env.update_if_necessary || s.first_run then
    let cleared : List Src := []
    let takenDep := memTake s.dep_value
    let old_dep_value := takenDep.1
    let rdep := dependency_fn flag
    let new_dep_value := rdep.1
    let takenWatch := memTake s.watch_value
    let old_watch_value := takenWatch.1
    if immediate || !s.first_run then
      let new_watch_value := handler new_dep_value old_dep_value old_watch_value flag
      ({ state := { first_run := false, dep_value := some new_dep_value,
                    watch_value := some new_watch_value,
                    sources := cleared ++ rdep.2 },
         ran := true, uinCalled := true,
         handlerCall := some (new_dep_value, old_dep_value, old_watch_value) }, flag)
    else
      ({ state := { first_run := false, dep_value := some new_dep_value,
                    watch_value := takenWatch.2,
                    sources := cleared ++ rdep.2 },
         ran := true, uinCalled := true, handlerCall := none }, flag)
  else
    ({ state := s, ran := false, uinCalled := true, handlerCall := none }, flag)

/-- Processing a whole list of wakes through the Effect::new loop. -/
def Effect.newRun {T : Type} (f : Option T → Bool → T × List Src) :
    List WakeEnv → EffectState T → Bool → EffectState T
  | [], s, _ => s
  | env :: rest, s, flag =>
    let r := Effect.newStep f env s flag
    Effect.newRun f rest r.1.state r.2

/-- Processing a whole list of wakes through the Effect::new_isomorphic loop. -/
def Effect.new_isomorphicRun {T : Type} (f : Option T → Bool → T × List Src) :
    List WakeEnv → EffectState T → Bool → EffectState T
  | [], s, _ => s
  | env :: rest, s, flag =>
    let r := Effect.new_isomorphicStep f env s flag
    Effect.new_isomorphicRun f rest r.1.state r.2

/-- The effect_base initial loop state (effect.rs effect_base and its callers):
first iteration pending, both previous-value cells empty, empty source set. -/
def initialEffectState (T : Type) : EffectState T :=
  { first_run := true, value := none, sources := [] }

/-- The effect_base initial loop state for a watch effect. -/
def initialWatchState (D T : Type) : WatchState D T :=
  { first_run := true, dep_value := none, watch_value := none, sources := [] }

/-- The spec's P4 example user function: previous.unwrap_or(0) + 1, reading no
reactive sources and ignoring the scope flag. -/
def counterFun (prev : Option Nat) (_flag : Bool) : Nat × List Src :=
  (prev.getD 0 + 1, [])

/-- The shared effect record (effect_base in effect.rs builds
`EffectInner { dirty: true, observer, sources: SourceSet::new() }`); the
observer wake channel is consumed by the loop models as the wake list and is
not part of the record here. -/
structure EffectInner where
  dirty : Bool
  sources : List Src
deriving DecidableEq, Repr

/-- StoredEffect = `Option<Arc<RwLock<EffectInner>>>` (effect.rs line 85):
`none` once the record has been taken out by `stop()`. -/
abbrev StoredEffect := Option EffectInner

/-- Modelled from the spec: the Arena Slot collaborator (spec section 6,
`new_with_storage` / `try_update_value` / `try_with_value` / `dispose`), whose
code lies outside this file. A slot stably stores one value; `value = none`
represents a disposed or empty slot, on which the try operations return `none`
and do nothing. -/
structure ArenaItem (α : Type) where
  value : Option α
deriving DecidableEq, Repr

/-- Arena Slot construction: a live slot holding `v`. -/
def ArenaItem.new_with_storage {α : Type} (v : α) : ArenaItem α :=
  { value := some v }

/-- Arena Slot update: if the slot is live, apply `f` to its contents (the
first component is the new contents, the second the closure's return value)
and return `some` of that return value; on a dead slot, do nothing. -/
def ArenaItem.try_update_value {α β : Type} (slot : ArenaItem α)
    (f : α → α × β) : ArenaItem α × Option β :=
  match slot.value with
  | none => (slot, none)
  | some v =>
    let r := f v
    ({ value := some r.1 }, some r.2)

/-- Arena Slot read: apply `f` to the contents of a live slot. -/
def ArenaItem.try_with_value {α β : Type} (slot : ArenaItem α) (f : α → β) :
    Option β :=
  slot.value.map f

/-- Arena Slot disposal: the slot is emptied. -/
def ArenaItem.dispose {α : Type} (_slot : ArenaItem α) : ArenaItem α :=
  { value := none }

/-- The Effect handle (effect.rs line 80-83:
`pub struct Effect<S> { inner: Option<ArenaItem<StoredEffect, S>> }`); the
storage parameter `S` only selects where the slot lives and is dropped here. -/
structure Effect where
  inner : Option (ArenaItem StoredEffect)
deriving DecidableEq, Repr

/-- effect_base (effect.rs lines 95-111): the freshly allocated record is
dirty with an empty source set (it also primes one synthetic wake and a fresh
owner, which the loop models receive as inputs). -/
def effect_base : EffectInner :=
  { dirty := true, sources := [] }

/-- Effect::new handle construction (effect.rs lines 158-198): when the
`effects` feature is disabled the handle is `{ inner: None }`; otherwise the
loop is spawned and the arena slot stores the effect_base record. -/
def Effect.new (effects_enabled : Bool) : Effect :=
  if effects_enabled then
    { inner := some (ArenaItem.new_with_storage (some effect_base)) }
  else
    { inner := none }

/-- Effect::watch handle construction (effect.rs lines 303-367): same
cfg-gated shape as Effect::new. -/
def Effect.watch (effects_enabled : Bool) : Effect :=
  if effects_enabled then
    { inner := some (ArenaItem.new_with_storage (some effect_base)) }
  else
    { inner := none }

/-- Effect::new_isomorphic handle construction (effect.rs lines 393-435):
bypasses the `effects` toggle entirely, always live. -/
def Effect.new_isomorphic : Effect :=
  { inner := some (ArenaItem.new_with_storage (some effect_base)) }

/-- Effect::new_sync handle construction (effect.rs lines 376-387): returns an
inert handle when the `effects` feature is disabled, otherwise delegates to
Effect::new_isomorphic. -/
def Effect.new_sync (effects_enabled : Bool) : Effect :=
  if effects_enabled then Effect.new_isomorphic else { inner := none }

/-- Effect::watch_sync handle construction (effect.rs lines 438-505): same
cfg-gated shape as Effect::watch. -/
def Effect.watch_sync (effects_enabled : Bool) : Effect :=
  if effects_enabled then
    { inner := some (ArenaItem.new_with_storage (some effect_base)) }
  else
    { inner := none }

/-- Effect::stop (effect.rs lines 141-148): take the stored record out of the
arena slot (if the handle has one and the slot is live) and drop it. Returns
the handle together with its slot's state after the call. -/
def Effect.stop (e : Effect) : Effect :=
  match e.inner with
  | none => { inner := none }
  | some slot =>
    let r := slot.try_update_value (fun inner => ((none : StoredEffect), inner))
    { inner := some r.1 }

/-- Dispose for Effect (effect.rs lines 87-93): dispose the arena slot when
the handle has one. -/
def Effect.dispose (e : Effect) : Effect :=
  match e.inner with
  | none => e
  | some slot => { inner := some slot.dispose }

/-- ToAnySubscriber for Effect (effect.rs lines 508-523):
`self.inner.and_then(|i| i.try_with_value(|i| i.as_ref().map(to_any_subscriber)).flatten()).expect(...)`.
The subscriber of a live record is identified with the record itself, and the
Rust panic from `.expect` is `Except.error` carrying the panic message. -/
def Effect.to_any_subscriber (e : Effect) : Except String EffectInner :=
  match e.inner.bind (fun slot =>
      (slot.try_with_value (fun st => st.map (fun i => i))).bind (fun x => x)) with
  | some inner => Except.ok inner
  | none => Except.error "tried to set effect that has been stopped"

/-- Entry/exit events of one driving loop's user-visible body, for the
serialization property. -/
inductive LoopEvent where
  | enter
  | exited
deriving DecidableEq, Repr

/-- The event trace consisting of n complete enter/exited pairs in sequence. -/
def pairedTrace : Nat → List LoopEvent
  | 0 => []
  | n + 1 => LoopEvent.enter :: LoopEvent.exited :: pairedTrace n

/-- Event trace of a driving loop: the per-wake step of a flavor (returning
the new loop state, whether the qualifying body ran, and the new scope flag)
is applied to the received wakes in order; an enter event marks the start of
the qualifying body and an exited event its completion. The loop's only
suspension point, `rx.next().await`, lies between iterations. -/
def loopTrace {σ : Type} (step : WakeEnv → σ → Bool → σ × Bool × Bool) :
    List WakeEnv → σ → Bool → List LoopEvent
  | [], _, _ => []
  | env :: rest, s, flag =>
    (if (step env s flag).2.1 then [LoopEvent.enter, LoopEvent.exited] else [])
      ++ loopTrace step rest (step env s flag).1 (step env s flag).2.2

/-- The Effect::new loop step, projected for the trace model. -/
def Effect.newLoop {T : Type} (f : Option T → Bool → T × List Src)
    (env : WakeEnv) (s : EffectState T) (flag : Bool) :
    EffectState T × Bool × Bool :=
  let r := Effect.newStep f env s flag
  (r.1.state, r.1.ran, r.2)

/-- The Effect::new_isomorphic loop step, projected for the trace model. -/
def Effect.new_isomorphicLoop {T : Type} (f : Option T → Bool → T × List Src)
    (env : WakeEnv) (s : EffectState T) (flag : Bool) :
    EffectState T × Bool × Bool :=
  let r := Effect.new_isomorphicStep f env s flag
  (r.1.state, r.1.ran, r.2)

/-- The Effect::watch loop step, projected for the trace model. -/
def Effect.watchLoop {D T : Type} (dependency_fn : Bool → D × List Src)
    (handler : D → Option D → Option T → Bool → T) (immediate : Bool)
    (env : WakeEnv) (s : WatchState D T) (flag : Bool) :
    WatchState D T × Bool × Bool :=
  let r := Effect.watchStep dependency_fn handler immediate env s flag
  (r.1.state, r.1.ran, r.2)

/-- The Effect::watch_sync loop step, projected for the trace model. -/
def Effect.watch_syncLoop {D T : Type} (dependency_fn : Bool → D × List Src)
    (handler : D → Option D → Option T → Bool → T) (immediate : Bool)
    (env : WakeEnv) (s : WatchState D T) (flag : Bool) :
    WatchState D T × Bool × Bool :=
  let r := Effect.watch_syncStep dependency_fn handler immediate env s flag
  (r.1.state, r.1.ran, r.2)

/-- Scope-flag probe dependency function: returns the flag value it observed. -/
def scopeProbeDep (b : Bool) : Bool × List Src := (b, [])

/-- Scope-flag probe user function for the plain flavors. -/
def scopeProbeFun (_prev : Option Bool) (b : Bool) : Bool × List Src := (b, [])

/-- Scope-flag probe handler: returns the flag value it observed. -/
def scopeProbeHandler (_d : Bool) (_pd : Option Bool) (_pt : Option Bool)
    (b : Bool) : Bool := b

/-- C9: for every function and every initial value of the per-thread
effect-scope flag, run_in_effect_scope runs the function with
in_effect_scope() reporting true, and on normal exit restores the flag to its
saved prior value rather than forcing it false; hence a nested
run_in_effect_scope inside an already-true scope leaves the flag true after
the inner call returns. -/
theorem run_in_effect_scope_saves_and_restores {α : Type}
    (f g : Bool → α × Bool) (flag : Bool) :
    (run_in_effect_scope f flag).1 = (f true).1
    ∧ (run_in_effect_scope f flag).2 = flag
    ∧ run_in_effect_scope in_effect_scope flag = (true, flag)
    ∧ (run_in_effect_scope (run_in_effect_scope g) true).2 = true :=
  ⟨rfl, rfl, rfl, rfl⟩

/-- C1: in both plain driving loops (Effect::new and the cross-thread
Effect::new_isomorphic), on each received wake the user function runs if and
only if the owner is not paused and either update_if_necessary (whose value on
this wake is the `update_if_necessary` field of the wake environment,
evaluated under the observer bound to this effect) returns true or it is the
first iteration; when the owner is paused the iteration is skipped without
evaluating update_if_necessary and without changing the loop state, so
first-run status is not consumed. -/
theorem effect_plain_loop_run_gate {T : Type}
    (f : Option T → Bool → T × List Src) (env : WakeEnv) (s : EffectState T)
    (flag : Bool) :
    ((Effect.newStep f env s flag).1.ran
        = (!env.paused && (env.update_if_necessary || s.first_run)))
    ∧ ((Effect.new_isomorphicStep f env s flag).1.ran
        = (!env.paused && (env.update_if_necessary || s.first_run)))
    ∧ (env.paused = true →
        (Effect.newStep f env s flag).1.uinCalled = false
        ∧ (Effect.newStep f env s flag).1.state = s
        ∧ (Effect.new_isomorphicStep f env s flag).1.uinCalled = false
        ∧ (Effect.new_isomorphicStep f env s flag).1.state = s) := by
  obtain ⟨p, u⟩ := env
  cases p <;> cases u <;> cases hfr : s.first_run <;>
    simp [Effect.newStep, Effect.new_isomorphicStep, hfr]

/-- C1 witness: with the owner paused, update_if_necessary is not evaluated. -/
theorem effect_plain_loop_run_gate_witness :
    (Effect.newStep counterFun ⟨true, false⟩ (initialEffectState Nat)
        false).1.uinCalled = false :=
  ((effect_plain_loop_run_gate counterFun ⟨true, false⟩ (initialEffectState Nat)
      false).2.2 rfl).1

/-- C2: in both plain driving loops, each qualifying run takes the
previous-output cell (the cell is empty while the user function executes),
passes the taken value to the user function (none when the cell held nothing,
as on the first run), and stores the returned value back as the new previous
output; concretely, with the user function previous.unwrap_or(0) + 1, run 1
yields output 1 and run 2 (after a dependency change) yields output 2. -/
theorem effect_plain_prev_output_cycle {T : Type}
    (f : Option T → Bool → T × List Src) (env : WakeEnv) (s : EffectState T)
    (flag : Bool)
    (hq : (!env.paused && (env.update_if_necessary || s.first_run)) = true) :
    ((Effect.newStep f env s flag).1.passedPrev = some s.value
      ∧ (Effect.newStep f env s flag).1.cellDuringRun = some none
      ∧ (Effect.newStep f env s flag).1.state.value = some (f s.value true).1
      ∧ (Effect.new_isomorphicStep f env s flag).1.passedPrev = some s.value
      ∧ (Effect.new_isomorphicStep f env s flag).1.cellDuringRun = some none
      ∧ (Effect.new_isomorphicStep f env s flag).1.state.value
          = some (f s.value true).1)
    ∧ Effect.newRun counterFun [⟨false, false⟩] (initialEffectState Nat) false
        = { first_run := false, value := some 1, sources := [] }
    ∧ Effect.newRun counterFun [⟨false, false⟩, ⟨false, true⟩]
          (initialEffectState Nat) false
        = { first_run := false, value := some 2, sources := [] }
    ∧ Effect.new_isomorphicRun counterFun [⟨false, false⟩]
          (initialEffectState Nat) false
        = { first_run := false, value := some 1, sources := [] }
    ∧ Effect.new_isomorphicRun counterFun [⟨false, false⟩, ⟨false, true⟩]
          (initialEffectState Nat) false
        = { first_run := false, value := some 2, sources := [] } := by
  rw [Bool.and_eq_true, Bool.not_eq_true'] at hq
  obtain ⟨hp, hu⟩ := hq
  refine ⟨?_, by decide, by decide, by decide, by decide⟩
  simp [Effect.newStep, Effect.new_isomorphicStep, hp, hu,
    run_in_effect_scope, memTake]

/-- C2 witness: on the first run the user function is passed none and the
output of the counter function is stored as 1. -/
theorem effect_plain_prev_output_cycle_witness :
    (Effect.newStep counterFun ⟨false, false⟩ (initialEffectState Nat)
        false).1.passedPrev = some none :=
  (effect_plain_prev_output_cycle counterFun ⟨false, false⟩
      (initialEffectState Nat) false (by decide)).1.1

/-- C3: in both watch driving loops (Effect::watch and Effect::watch_sync)
with immediate flag i, on each qualifying iteration the handler is invoked if
and only if i is true or it is not the first iteration; in particular on the
first tick (the effect_base initial state) the handler is not invoked when
i = false, and when i = true it is invoked with previous-dependency argument
none. -/
theorem effect_watch_immediate_gate {D T : Type}
    (dependency_fn : Bool → D × List Src)
    (handler : D → Option D → Option T → Bool → T)
    (immediate : Bool) (env : WakeEnv) (s : WatchState D T) (flag : Bool)
    (hq : (!env.paused && (env.update_if_necessary || s.first_run)) = true) :
    ((Effect.watchStep dependency_fn handler immediate env s
        flag).1.handlerCall.isSome = (immediate || !s.first_run))
    ∧ ((Effect.watch_syncStep dependency_fn handler immediate env s
        flag).1.handlerCall.isSome = (immediate || !s.first_run))
    ∧ (Effect.watchStep dependency_fn handler false env
        (initialWatchState D T) flag).1.handlerCall = none
    ∧ (Effect.watch_syncStep dependency_fn handler false env
        (initialWatchState D T) flag).1.handlerCall = none
    ∧ (Effect.watchStep dependency_fn handler true env
        (initialWatchState D T) flag).1.handlerCall
        = some ((dependency_fn flag).1, none, none)
    ∧ (Effect.watch_syncStep dependency_fn handler true env
        (initialWatchState D T) flag).1.handlerCall
        = some ((dependency_fn flag).1, none, none) := by
  rw [Bool.and_eq_true, Bool.not_eq_true'] at hq
  obtain ⟨hp, hu⟩ := hq
  cases hi : (immediate || !s.first_run) <;>
    simp [Effect.watchStep, Effect.watch_syncStep, hp, hu, hi, memTake,
      initialWatchState]

/-- C3 witness: on the first tick with immediate = true the handler fires. -/
theorem effect_watch_immediate_gate_witness :
    (Effect.watchStep (fun _ => ((5 : Nat), ([] : List Src)))
        (fun d _ _ _ => d) true ⟨false, true⟩ (initialWatchState Nat Nat)
        false).1.handlerCall.isSome = true :=
  (effect_watch_immediate_gate (fun _ => ((5 : Nat), ([] : List Src)))
      (fun d _ _ _ => d) true ⟨false, true⟩ (initialWatchState Nat Nat)
      false (by decide)).1

/-- C5: in every driving loop flavor, a qualifying iteration clears the
tracked source set before the user function or dependency function runs under
the observer context: the source set after the iteration is exactly the set of
sources read during this run, so a source recorded in a previous run remains
tracked only if it was read again. -/
theorem effect_clear_sources_retrack {T D U : Type}
    (f : Option T → Bool → T × List Src)
    (dependency_fn : Bool → D × List Src)
    (handler : D → Option D → Option U → Bool → U)
    (immediate : Bool) (env : WakeEnv) (s : EffectState T)
    (w : WatchState D U) (flag : Bool)
    (hq : (!env.paused && (env.update_if_necessary || s.first_run)) = true)
    (hw : (!env.paused && (env.update_if_necessary || w.first_run)) = true) :
    ((Effect.newStep f env s flag).1.state.sources = (f s.value true).2)
    ∧ ((Effect.new_isomorphicStep f env s flag).1.state.sources
        = (f s.value true).2)
    ∧ ((Effect.watchStep dependency_fn handler immediate env w
        flag).1.state.sources = (dependency_fn flag).2)
    ∧ ((Effect.watch_syncStep dependency_fn handler immediate env w
        flag).1.state.sources = (dependency_fn flag).2)
    ∧ (∀ x, x ∈ (Effect.newStep f env s flag).1.state.sources →
        x ∈ (f s.value true).2) := by
  rw [Bool.and_eq_true, Bool.not_eq_true'] at hq hw
  obtain ⟨hp, hu⟩ := hq
  obtain ⟨-, hwu⟩ := hw
  cases hi : (immediate || !w.first_run) <;>
    simp [Effect.newStep, Effect.new_isomorphicStep, Effect.watchStep,
      Effect.watch_syncStep, hp, hu, hwu, hi, memTake, run_in_effect_scope]

/-- C5 witness: at a state whose old source set is nonempty, a qualifying run
leaves exactly the sources read by the current run. -/
theorem effect_clear_sources_retrack_witness :
    (Effect.newStep (fun _ _ => ((0 : Nat), [7])) ⟨false, true⟩
        { first_run := false, value := some 0, sources := [1, 2, 3] }
        false).1.state.sources = [7] :=
  (effect_clear_sources_retrack (fun _ _ => ((0 : Nat), [7]))
      (fun _ => ((0 : Nat), ([] : List Src))) (fun d _ _ _ => d) false
      ⟨false, true⟩ { first_run := false, value := some 0, sources := [1, 2, 3] }
      (initialWatchState Nat Nat) false (by decide) (by decide)).1

/-- C7: in both watch driving loops, a qualifying iteration always stores the
new dependency value as the previous-dependency snapshot, whether or not the
handler was invoked; the previous-handler-output cell is refilled (with the
handler's result) only when the handler actually ran, and is left empty
otherwise (it was taken at the start of the iteration). -/
theorem effect_watch_snapshot_discipline {D T : Type}
    (dependency_fn : Bool → D × List Src)
    (handler : D → Option D → Option T → Bool → T)
    (immediate : Bool) (env : WakeEnv) (s : WatchState D T) (flag : Bool)
    (hq : (!env.paused && (env.update_if_necessary || s.first_run)) = true) :
    ((Effect.watchStep dependency_fn handler immediate env s
        flag).1.state.dep_value = some (dependency_fn flag).1)
    ∧ ((Effect.watch_syncStep dependency_fn handler immediate env s
        flag).1.state.dep_value = some (dependency_fn flag).1)
    ∧ ((immediate || !s.first_run) = true →
        (Effect.watchStep dependency_fn handler immediate env s
            flag).1.state.watch_value
          = some (handler (dependency_fn flag).1 s.dep_value s.watch_value flag)
        ∧ (Effect.watch_syncStep dependency_fn handler immediate env s
            flag).1.state.watch_value
          = some (handler (dependency_fn flag).1 s.dep_value s.watch_value flag))
    ∧ ((immediate || !s.first_run) = false →
        (Effect.watchStep dependency_fn handler immediate env s
            flag).1.state.watch_value = none
        ∧ (Effect.watch_syncStep dependency_fn handler immediate env s
            flag).1.state.watch_value = none) := by
  rw [Bool.and_eq_true, Bool.not_eq_true'] at hq
  obtain ⟨hp, hu⟩ := hq
  cases hi : (immediate || !s.first_run) <;>
    simp [Effect.watchStep, Effect.watch_syncStep, hp, hu, hi, memTake]

/-- C7 witness: on a first tick with immediate = false the dependency snapshot
is stored while the handler-output cell stays empty. -/
theorem effect_watch_snapshot_discipline_witness :
    (Effect.watchStep (fun _ => ((5 : Nat), ([] : List Src)))
        (fun d _ _ _ => d) false ⟨false, false⟩ (initialWatchState Nat Nat)
        false).1.state.dep_value = some 5
    ∧ (Effect.watchStep (fun _ => ((5 : Nat), ([] : List Src)))
        (fun d _ _ _ => d) false ⟨false, false⟩ (initialWatchState Nat Nat)
        false).1.state.watch_value = none :=
  ⟨(effect_watch_snapshot_discipline (fun _ => ((5 : Nat), ([] : List Src)))
      (fun d _ _ _ => d) false ⟨false, false⟩ (initialWatchState Nat Nat)
      false (by decide)).1,
   ((effect_watch_snapshot_discipline (fun _ => ((5 : Nat), ([] : List Src)))
      (fun d _ _ _ => d) false ⟨false, false⟩ (initialWatchState Nat Nat)
      false (by decide)).2.2.2 rfl).1⟩

/-- Helper for the serialization property: any driving-loop trace is a
sequence of complete enter/exited pairs, because the loop body runs to
completion before the recursion consumes the next wake. -/
theorem loopTrace_paired {σ : Type}
    (step : WakeEnv → σ → Bool → σ × Bool × Bool) :
    ∀ (wakes : List WakeEnv) (s : σ) (flag : Bool),
      ∃ n, loopTrace step wakes s flag = pairedTrace n := by
  intro wakes
  induction wakes with
  | nil => exact fun s flag => ⟨0, rfl⟩
  | cons env rest ih =>
    intro s flag
    obtain ⟨n, hn⟩ := ih (step env s flag).1 (step env s flag).2.2
    cases hr : (step env s flag).2.1
    · exact ⟨n, by simp [loopTrace, hr, hn]⟩
    · exact ⟨n + 1, by simp [loopTrace, hr, hn, pairedTrace]⟩

/-- C8: for every driving-loop flavor, the entry/exit trace over any sequence
of received wakes consists of complete enter/exited pairs in order: each
iteration's body, including the full user-function call, runs to completion
before the next wake is consumed, so at most one execution of the effect's
function is in flight at a time and every next entry occurs after the previous
exit. -/
theorem effect_loop_serialized {T D U : Type}
    (f : Option T → Bool → T × List Src)
    (dependency_fn : Bool → D × List Src)
    (handler : D → Option D → Option U → Bool → U) (immediate : Bool)
    (wakes : List WakeEnv) (s : EffectState T) (w : WatchState D U)
    (flag : Bool) :
    (∃ n, loopTrace (Effect.newLoop f) wakes s flag = pairedTrace n)
    ∧ (∃ n, loopTrace (Effect.new_isomorphicLoop f) wakes s flag
        = pairedTrace n)
    ∧ (∃ n, loopTrace (Effect.watchLoop dependency_fn handler immediate)
        wakes w flag = pairedTrace n)
    ∧ (∃ n, loopTrace (Effect.watch_syncLoop dependency_fn handler immediate)
        wakes w flag = pairedTrace n) :=
  ⟨loopTrace_paired _ wakes s flag, loopTrace_paired _ wakes s flag,
   loopTrace_paired _ wakes w flag, loopTrace_paired _ wakes w flag⟩

/-- C10: in the watch driving loops, neither the dependency function nor the
handler runs inside run_in_effect_scope: both are evaluated at the ambient
scope-flag value, as witnessed by the stored dependency value being
`dependency_fn` applied to the ambient flag (and the stored handler output
being the handler applied to the ambient flag), whereas the plain flavors pass
their user function through run_in_effect_scope so it is always evaluated with
the flag true. With the probe functions that return the flag they observe and
an ambient flag of false, the watch loop stores false while the plain loop
stores true. -/
theorem watch_fns_keep_ambient_scope_flag {D T U : Type}
    (f : Option U → Bool → U × List Src)
    (dependency_fn : Bool → D × List Src)
    (handler : D → Option D → Option T → Bool → T)
    (immediate : Bool) (env : WakeEnv) (s : WatchState D T)
    (p : EffectState U) (flag : Bool)
    (hq : (!env.paused && (env.update_if_necessary || s.first_run)) = true)
    (hp : (!env.paused && (env.update_if_necessary || p.first_run)) = true) :
    ((Effect.watchStep dependency_fn handler immediate env s
        flag).1.state.dep_value = some (dependency_fn flag).1)
    ∧ ((Effect.watch_syncStep dependency_fn handler immediate env s
        flag).1.state.dep_value = some (dependency_fn flag).1)
    ∧ ((immediate || !s.first_run) = true →
        (Effect.watchStep dependency_fn handler immediate env s
            flag).1.state.watch_value
          = some (handler (dependency_fn flag).1 s.dep_value s.watch_value
              flag))
    ∧ ((Effect.newStep f env p flag).1.state.value = some (f p.value true).1)
    ∧ ((Effect.new_isomorphicStep f env p flag).1.state.value
        = some (f p.value true).1)
    ∧ (Effect.watchStep scopeProbeDep scopeProbeHandler true ⟨false, true⟩
        (initialWatchState Bool Bool) false).1.state.dep_value = some false
    ∧ (Effect.watchStep scopeProbeDep scopeProbeHandler true ⟨false, true⟩
        (initialWatchState Bool Bool) false).1.state.watch_value = some false
    ∧ (Effect.newStep scopeProbeFun ⟨false, true⟩ (initialEffectState Bool)
        false).1.state.value = some true := by
  rw [Bool.and_eq_true, Bool.not_eq_true'] at hq hp
  obtain ⟨hqp, hqu⟩ := hq
  obtain ⟨-, hpu⟩ := hp
  refine ⟨?_, ?_, ?_, ?_, ?_, by decide, by decide, by decide⟩ <;>
    cases hi : (immediate || !s.first_run) <;>
      simp [Effect.watchStep, Effect.watch_syncStep, Effect.newStep,
        Effect.new_isomorphicStep, hqp, hqu, hpu, hi, memTake,
        run_in_effect_scope]

/-- C10 witness: a qualifying watch iteration stores the dependency function's
value at the ambient flag. -/
theorem watch_fns_keep_ambient_scope_flag_witness :
    (Effect.watchStep scopeProbeDep scopeProbeHandler false ⟨false, true⟩
        (initialWatchState Bool Bool) false).1.state.dep_value = some false :=
  (watch_fns_keep_ambient_scope_flag scopeProbeFun scopeProbeDep
      scopeProbeHandler false ⟨false, true⟩ (initialWatchState Bool Bool)
      (initialEffectState Bool) false (by decide) (by decide)).1

/-- C6: after stop(), the backing record has been taken out of the arena slot
(the slot, when present, now stores none) and dropped; the handle is
permanently inert (a second stop changes nothing), and any subsequent
resolution to a live subscriber via to_any_subscriber fails fatally with the
diagnostic "tried to set effect that has been stopped" (the Rust panic is
modeled as Except.error), rather than silently continuing; before stop, a live
handle resolves to its record. -/
theorem effect_stop_detaches_and_resolution_aborts (e : Effect) :
    (e.stop).to_any_subscriber
        = Except.error "tried to set effect that has been stopped"
    ∧ (e.stop).stop = e.stop
    ∧ ((Effect.new true).stop).inner
        = some { value := some (none : StoredEffect) }
    ∧ (Effect.new true).to_any_subscriber = Except.ok effect_base := by
  rcases e with ⟨(_ | ⟨(_ | st)⟩)⟩ <;> exact ⟨rfl, rfl, rfl, rfl⟩

/-- C4 counterexample: when effect execution is disabled at build time,
resolving the inert handle to a subscriber is not a safe no-op: the code
panics (modeled as Except.error) with the stopped-effect diagnostic, because
the handle's inner slot is None and the expect in ToAnySubscriber fires. -/
theorem disabled_handle_resolution_panics :
    (Effect.new false).to_any_subscriber
      = Except.error "tried to set effect that has been stopped" := rfl

/-- C4 amended: when effect execution is globally disabled at build time,
construction (Effect::new, Effect::watch, Effect::new_sync,
Effect::watch_sync) returns an inert handle, and stop and dispose on that
handle are safe no-ops; resolving the handle to a subscriber via
to_any_subscriber, however, fails fatally with the same "tried to set effect
that has been stopped" diagnostic as a stopped handle. -/
theorem disabled_handle_ops_noop :
    (Effect.new false).inner = none
    ∧ (Effect.watch false).inner = none
    ∧ (Effect.new_sync false).inner = none
    ∧ (Effect.watch_sync false).inner = none
    ∧ (Effect.new false).stop = Effect.new false
    ∧ (Effect.new false).dispose = Effect.new false
    ∧ (Effect.watch false).stop = Effect.watch false
    ∧ (Effect.watch false).dispose = Effect.watch false
    ∧ (Effect.new_sync false).stop = Effect.new_sync false
    ∧ (Effect.new_sync false).dispose = Effect.new_sync false
    ∧ (Effect.watch_sync false).stop = Effect.watch_sync false
    ∧ (Effect.watch_sync false).dispose = Effect.watch_sync false
    ∧ (Effect.new false).to_any_subscriber
        = Except.error "tried to set effect that has been stopped" :=
  ⟨rfl, rfl, rfl, rfl, rfl, rfl, rfl, rfl, rfl, rfl, rfl, rfl, rfl⟩
